import Mathlib

/-
Verification of the CAN-FD (MCAN) hardware-abstraction layer of the
bw-r-drivers-tc37x repository against its natural-language specification.

The Rust sources are shallowly embedded: registers become record fields,
register read-modify-write sequences become pure state transformers, and
the hardware's freedom to reject a written value is modelled by an explicit
response function.  Machine integers (u8/u16/u32/usize) are modelled as Nat;
where wrap-around matters (the usize decrement in wait_cond) the modulus
2^64 is written out explicitly.
-/

namespace Tc37x

/-! ### Data model shared by the CAN node embedding -/

/-- Embeds enum DataFieldSize (src/src/can/can_node.rs): the eight legal
element data-field sizes, with the discriminants 0..7 given by repr(u8). -/
inductive DataFieldSize where
  | _8
  | _12
  | _16
  | _20
  | _24
  | _32
  | _48
  | _64
deriving DecidableEq

/-- The u8 discriminant of DataFieldSize (repr(u8), declaration order). -/
def DataFieldSize.as_u8 : DataFieldSize → Nat
  | ._8 => 0
  | ._12 => 1
  | ._16 => 2
  | ._20 => 3
  | ._24 => 4
  | ._32 => 5
  | ._48 => 6
  | ._64 => 7

/-- Embeds enum ReadFrom (src/src/can/msg.rs, declared by its use in
src/src/can/can_node/effects.rs): which RX element a read targets. -/
inductive ReadFrom where
  | Buffer (id : Nat)
  | RxFifo0
  | RxFifo1
deriving DecidableEq

/-- The RXESC register fields read by get_data_field_size: the 3-bit size
codes for dedicated RX buffers and the two RX FIFOs. -/
structure RxEsc where
  rbds : Nat
  f0ds : Nat
  f1ds : Nat
deriving DecidableEq

/-- Embeds NodeEffects::get_data_field_size
(src/src/can/can_node/effects.rs lines 668-682): pick the size code for
the requested element kind and map it through the two-tier encoding. -/
def get_data_field_size (rx_esc : RxEsc) (bfrom : ReadFrom) : Nat :=
  let size_code : Nat :=
    match bfrom with
    | .Buffer _ => rx_esc.rbds
    | .RxFifo0 => rx_esc.f0ds
    | .RxFifo1 => rx_esc.f1ds
  if size_code < DataFieldSize._32.as_u8 then
    (size_code + 2) * 4
  else
    (size_code - 3) * 16

/-- Embeds NodeEffects::get_tx_buffer_data_field_size
(src/src/can/can_node/effects.rs lines 684-693): the raw TXESC register
value is masked with 0x2 and mapped through the same two-tier encoding. -/
def get_tx_buffer_data_field_size (txesc_raw : Nat) : Nat :=
  let size_code : Nat := txesc_raw &&& 0x2
  if size_code < DataFieldSize._32.as_u8 then
    (size_code + 2) * 4
  else
    (size_code - 3) * 16

/-- The two-tier size-code-to-byte-count mapping named by the spec:
codes below the code for 32 bytes map as (code+2)*4, codes at or above it
map as (code-3)*16.  Both RX and TX decoders are proved to factor
through this single function. -/
def data_field_size_from_code (size_code : Nat) : Nat :=
  if size_code < DataFieldSize._32.as_u8 then
    (size_code + 2) * 4
  else
    (size_code - 3) * 16

/-! ### RX element decoding (src/src/can/internals/rx.rs) -/

/-- Embeds enum MessageIdLenght (sic) used by Rx::get_message_id. -/
inductive MessageIdLenght where
  | Standard
  | Extended
deriving DecidableEq

/-- The R0 word of a received message-RAM element: the 29-bit raw
identifier field and the XTD (extended-identifier) discriminator bit. -/
structure RxElementR0 where
  id : Nat
  xtd : Bool
deriving DecidableEq

/-- Embeds Rx::get_message_id (src/src/can/internals/rx.rs lines 26-42):
the raw identifier is shifted right by 18 bits for a standard (11-bit)
identifier and used unshifted for an extended (29-bit) identifier. -/
def get_message_id (r0 : RxElementR0) : Nat :=
  let message_lenght :=
    if r0.xtd then MessageIdLenght.Extended else MessageIdLenght.Standard
  let shift : Nat :=
    if message_lenght = MessageIdLenght.Standard then 18 else 0
  r0.id >>> shift

/-! ### Module ownership gate (src/src/can/can_module/mod.rs) -/

/-- Embeds Module::take_node (src/src/can/can_module/mod.rs lines 63-81).
nodes_taken is the module's [bool; 4] claimed-flags array (NodeId's
as_index is always in 0..3, so indexing cannot panic).  Node::new is a
fallible hardware-configuration step (its success depends on the
clock-switch handshake); its outcome is passed in as node_new_ok, and the
created node is represented by Unit.  The flag is written before
Node::new runs, exactly as in the source. -/
def take_node (node_new_ok : Bool) (nodes_taken : List Bool)
    (node_index : Nat) : Option Unit × List Bool :=
  if nodes_taken.getD node_index false then
    (none, nodes_taken)
  else
    let nodes_taken := nodes_taken.set node_index true
    ((if node_new_ok then some () else none), nodes_taken)

/-! ### Busy-wait helper (src/src/scu/ccu.rs) -/

/-- The number of values of usize: the wrap-around modulus of the
timeout counter in wait_cond. -/
def USIZE_SIZE : Nat := 2 ^ 64

/-- One wrapping decrement modulo W, as performed by
`timeout_cycle_count -= 1` at W = 2^64 in a release build: subtracting 1
with wrap-around. -/
def wrap_dec (W t : Nat) : Nat := (t + (W - 1)) % W

/-- The loop of wait_cond (src/src/scu/ccu.rs lines 450-462),
parameterized by the wrap-around modulus W of the counter (the source
fixes W = 2^64 by using usize).  The impure closure `cond` is modelled
as the sequence of values it returns: `cond i` is the result of its
(i+1)-th evaluation.  Each iteration evaluates the condition; while it
holds the counter is decremented (with wrap-around) and Err is returned
when it reaches zero. -/
def wait_cond_go (W : Nat) (hW : 1 < W) (cond : Nat → Bool) (i : Nat)
    (t : Nat) : Except Unit Unit :=
  if cond i = false then
    .ok ()
  else
    if wrap_dec W t = 0 then
      .error ()
    else
      wait_cond_go W hW cond (i + 1) (wrap_dec W t)
termination_by (if t % W = 0 then W else t % W)
decreasing_by
  have h0 : 0 < W := by omega
  have hmodt : t % W < W := Nat.mod_lt _ h0
  have hkey : wrap_dec W t = if t % W = 0 then W - 1 else t % W - 1 := by
    rw [wrap_dec, Nat.add_mod]
    rcases Nat.eq_zero_or_pos (t % W) with hz | hpos
    · rw [hz]
      simp [Nat.mod_mod_of_dvd, Nat.mod_eq_of_lt (show W - 1 < W by omega)]
    · have h1 : (W - 1) % W = W - 1 := Nat.mod_eq_of_lt (by omega)
      rw [h1, if_neg (by omega)]
      have h2 : t % W + (W - 1) = W + (t % W - 1) := by omega
      rw [h2, Nat.add_mod_left]
      exact Nat.mod_eq_of_lt (by omega)
  rename_i hcond hne
  rw [hkey] at hne ⊢
  rcases Nat.eq_zero_or_pos (t % W) with hz | hpos
  · rw [if_pos hz] at hne ⊢
    rw [if_pos hz]
    rw [Nat.mod_eq_of_lt (show W - 1 < W by omega)]
    rw [if_neg (show ¬(W - 1 = 0) by omega)]
    omega
  · rw [if_neg (show ¬(t % W = 0) by omega)] at hne ⊢
    rw [if_neg (show ¬(t % W = 0) by omega)]
    rw [Nat.mod_eq_of_lt (show t % W - 1 < W by omega)]
    rw [if_neg hne]
    omega

/-- The counter of wait_cond is a usize, so its wrap-around modulus 2^64
is greater than 1. -/
def one_lt_USIZE_SIZE : 1 < USIZE_SIZE := by norm_num [USIZE_SIZE]

/-- Embeds wait_cond (src/src/scu/ccu.rs lines 450-462): busy-wait while
`cond` holds, with an initial counter of timeout_cycle_count and the
usize wrap-around modulus. -/
def wait_cond (timeout_cycle_count : Nat) (cond : Nat → Bool) :
    Except Unit Unit :=
  wait_cond_go USIZE_SIZE one_lt_USIZE_SIZE cond 0 timeout_cycle_count

/-! ### Node configuration data (src/src/can/can_node.rs) -/

/-- Embeds enum FrameMode. -/
inductive FrameMode where
  | Standard
  | FdLong
  | FdLongAndFast
deriving DecidableEq

/-- Embeds enum FrameType (the node's direction policy). -/
inductive FrameType where
  | Receive
  | Transmit
  | TransmitAndReceive
  | RemoteRequest
  | RemoteAnswer
deriving DecidableEq

/-- Embeds enum TxMode. -/
inductive TxMode where
  | DedicatedBuffers
  | Fifo
  | Queue
  | SharedFifo
  | SharedQueue
deriving DecidableEq

/-- The u8 discriminant of TxMode (declaration order). -/
def TxMode.as_u8 : TxMode → Nat
  | .DedicatedBuffers => 0
  | .Fifo => 1
  | .Queue => 2
  | .SharedFifo => 3
  | .SharedQueue => 4

/-- Embeds enum RxMode. -/
inductive RxMode where
  | DedicatedBuffers
  | Fifo0
  | Fifo1
  | SharedFifo0
  | SharedFifo1
  | SharedAll
deriving DecidableEq

/-- Embeds enum RxFifoMode. -/
inductive RxFifoMode where
  | Blocking
  | Overwrite
deriving DecidableEq, BEq

/-- Embeds enum ClockSource (src/src/can/can_module/mod.rs). -/
inductive ClockSource where
  | Asynchronous
  | Synchronous
  | Both
deriving DecidableEq

/-- Embeds From(ClockSource) for u8: the selector value written into a
CLKSELx field. -/
def ClockSource.to_u8 : ClockSource → Nat
  | .Asynchronous => 1
  | .Synchronous => 2
  | .Both => 3

/-- Embeds struct BaudRate (user-supplied nominal bit-timing request). -/
structure BaudRate where
  baud_rate : Nat
  sample_point : Nat
  sync_jump_with : Nat
  prescalar : Nat
  time_segment_1 : Nat
  time_segment_2 : Nat
deriving DecidableEq

/-- Embeds struct FastBaudRate (CAN-FD data-phase timing request). -/
structure FastBaudRate where
  baud_rate : Nat
  sample_point : Nat
  sync_jump_with : Nat
  prescalar : Nat
  time_segment_1 : Nat
  time_segment_2 : Nat
  transceiver_delay_offset : Nat
deriving DecidableEq

/-- Embeds struct CanNodeConfig. -/
structure CanNodeConfig where
  clock_source : ClockSource
  calculate_bit_timing_values : Bool
  baud_rate : BaudRate
  fast_baud_rate : FastBaudRate
  frame_mode : FrameMode
  frame_type : FrameType
  tx_mode : TxMode
  rx_mode : RxMode
  tx_buffer_data_field_size : Nat
  message_ram_tx_buffers_start_address : Nat

/-- Embeds struct FifoData (RX FIFO layout request). -/
structure FifoData where
  field_size : DataFieldSize
  operation_mode : RxFifoMode
  watermark_level : Nat
  size : Nat
  start_address : Nat

/-- Embeds struct DedicatedData (TX buffer layout request). -/
structure DedicatedData where
  field_size : DataFieldSize
  start_address : Nat

/-- Register-level bit-timing values {prescaler, sync-jump-width,
time-segment-1, time-segment-2} (struct BitTiming of the bit-timing
calculator). -/
structure BitTimingRegs where
  brp : Nat
  sjw : Nat
  tseg1 : Nat
  tseg2 : Nat
deriving DecidableEq

/-! ### Node register state and write trace

The registers of one CAN node that NewCanNode::configure touches
(src/src/can/can_node.rs).  Every register write is also logged as an
event recording the CCE and INIT bits at the moment of the write, which
lets theorems speak about which writes happen inside the
configuration-change window. -/

/-- The register fields written by the node configuration code. -/
inductive RegField where
  | nbtp
  | dbtpTiming
  | dbtpTdc
  | tdcr
  | cccrFrame
  | cccrCce
  | cccrInit
  | cccrCceInit
  | txesc
  | txbcTbsa
  | txbcTfqm
  | txbcTfqs
  | txbtie
  | rxescF0ds
  | rxf0cF0sa
  | rxf0cF0s
  | rxf0cF0wm
  | rxf0cF0om
deriving DecidableEq

/-- Register fields whose writes the spec requires to happen while the
node is in ConfigurationChangeEnabled: nominal/fast bit timing,
frame-mode flags, TX buffer/FIFO layout, RX FIFO layout.  The CCE/INIT
handshake writes themselves are the state-transition writes and are
excluded. -/
def RegField.isTimingOrLayout : RegField → Bool
  | .nbtp | .dbtpTiming | .dbtpTdc | .tdcr | .cccrFrame
  | .txesc | .txbcTbsa | .txbcTfqm | .txbcTfqs | .txbtie
  | .rxescF0ds | .rxf0cF0sa | .rxf0cF0s | .rxf0cF0wm | .rxf0cF0om => true
  | .cccrCce | .cccrInit | .cccrCceInit => false

/-- The node registers (subset of the MCAN node register block) written
by NewCanNode::configure and its helpers. -/
structure NodeRegs where
  init : Bool
  cce : Bool
  fdoe : Bool
  brse : Bool
  nbrp : Nat
  nsjw : Nat
  ntseg1 : Nat
  ntseg2 : Nat
  dbrp : Nat
  dsjw : Nat
  dtseg1 : Nat
  dtseg2 : Nat
  tdc : Bool
  tdco : Nat
  tbds : Nat
  tbsa : Nat
  tfqm : Bool
  tfqs : Nat
  txbtie : Nat
  f0ds : Nat
  f0sa : Nat
  f0s : Nat
  f0wm : Nat
  f0om : Bool
deriving DecidableEq

/-- The node register block in its power-on state (all bits clear). -/
def NodeRegs.reset : NodeRegs :=
  ⟨false, false, false, false, 0, 0, 0, 0, 0, 0, 0, 0, false, 0,
   0, 0, false, 0, 0, 0, 0, 0, 0, false⟩

/-- One logged register write: the field written and the CCE and INIT
bits as they stood when the write was issued. -/
structure Event where
  reg : RegField
  cce : Bool
  init : Bool
deriving DecidableEq

/-- Node register state together with the trace of writes so far. -/
abbrev NodeSt : Type := NodeRegs × List Event

/-- Perform one register write: apply the update and log the event with
the CCE/INIT bits read before the write. -/
def emit (f : RegField) (upd : NodeRegs → NodeRegs) (st : NodeSt) :
    NodeSt :=
  (upd st.1, st.2 ++ [⟨f, st.1.cce, st.1.init⟩])

/-! ### NewCanNode register helpers (src/src/can/can_node.rs) -/

/-- Embeds NewCanNode::set_rx_fifo0_data_field_size. -/
def set_rx_fifo0_data_field_size (size : DataFieldSize) :
    NodeSt → NodeSt :=
  emit .rxescF0ds fun r => { r with f0ds := size.as_u8 }

/-- Embeds NewCanNode::set_rx_fifo0_start_address (and the identical
NodeEffects::set_rx_fifo0_start_address, src/src/can/can_node/effects.rs
lines 52-61): the F0SA register field receives address >> 2. -/
def set_rx_fifo0_start_address (address : Nat) : NodeSt → NodeSt :=
  emit .rxf0cF0sa fun r => { r with f0sa := address >>> 2 }

/-- Embeds NewCanNode::set_rx_fifo0_size. -/
def set_rx_fifo0_size (size : Nat) : NodeSt → NodeSt :=
  emit .rxf0cF0s fun r => { r with f0s := size }

/-- Embeds NewCanNode::set_rx_fifo0_watermark_level. -/
def set_rx_fifo0_watermark_level (level : Nat) : NodeSt → NodeSt :=
  emit .rxf0cF0wm fun r => { r with f0wm := level }

/-- Embeds NewCanNode::set_rx_fifo0_operating_mode. -/
def set_rx_fifo0_operating_mode (mode : RxFifoMode) : NodeSt → NodeSt :=
  emit .rxf0cF0om fun r => { r with f0om := mode == RxFifoMode.Overwrite }

/-- Embeds NewCanNode::set_rx_fifo0 (field size, start address, size,
operating mode, watermark, in source order). -/
def set_rx_fifo0 (data : FifoData) (st : NodeSt) : NodeSt :=
  set_rx_fifo0_watermark_level data.watermark_level
    (set_rx_fifo0_operating_mode data.operation_mode
      (set_rx_fifo0_size data.size
        (set_rx_fifo0_start_address data.start_address
          (set_rx_fifo0_data_field_size data.field_size st))))

/-- Embeds NewCanNode::set_tx_buffer_data_field_size. -/
def set_tx_buffer_data_field_size (data_field_size : Nat) :
    NodeSt → NodeSt :=
  emit .txesc fun r => { r with tbds := data_field_size }

/-- Embeds NewCanNode::set_tx_buffer_start_address
(src/src/can/can_node.rs lines 429-431): the TBSA register field
receives address >> 2. -/
def set_tx_buffer_start_address (address : Nat) : NodeSt → NodeSt :=
  emit .txbcTbsa fun r => { r with tbsa := address >>> 2 }

/-- Embeds NewCanNode::enable_tx_buffer_transmission_interrupt: OR the
bit for the given buffer id into TXBTIE. -/
def enable_tx_buffer_transmission_interrupt (tx_buffer_id : Nat) :
    NodeSt → NodeSt :=
  emit .txbtie fun r => { r with txbtie := r.txbtie ||| (1 <<< tx_buffer_id) }

/-- Embeds NewCanNode::set_transmit_fifo_queue_mode: for Fifo or Queue
mode write TFQM := (mode as u8) != 0; every other mode hits the
`panic!("invalid fifo queue mode")` branch, modelled as none. -/
def set_transmit_fifo_queue_mode (mode : TxMode) (st : NodeSt) :
    Option NodeSt :=
  match mode with
  | TxMode.Fifo | TxMode.Queue =>
    some (emit .txbcTfqm (fun r => { r with tfqm := mode.as_u8 != 0 }) st)
  | _ => none

/-- Embeds NewCanNode::set_transmit_fifo_queue_size. -/
def set_transmit_fifo_queue_size (number : Nat) : NodeSt → NodeSt :=
  emit .txbcTfqs fun r => { r with tfqs := number }

/-- Embeds NewCanNode::set_inner_tx_buffers. -/
def set_inner_tx_buffers (dedicated : DedicatedData) (st : NodeSt) :
    NodeSt :=
  set_tx_buffer_start_address dedicated.start_address
    (set_tx_buffer_data_field_size dedicated.field_size.as_u8 st)

/-- Embeds NewCanNode::set_inner_tx_fifo_queue. -/
def set_inner_tx_fifo_queue (mode : TxMode) (size : Nat) (st : NodeSt) :
    Option NodeSt :=
  (set_transmit_fifo_queue_mode mode st).map
    (set_transmit_fifo_queue_size size)

/-- Embeds NewCanNode::set_inner_tx_int: enable the
transmission-completed interrupt for buffers 0..size. -/
def set_inner_tx_int (size : Nat) (st : NodeSt) : NodeSt :=
  (List.range size).foldl
    (fun s id => enable_tx_buffer_transmission_interrupt id s) st

/-- Embeds NewCanNode::set_tx_fifo. -/
def set_tx_fifo (buffers : DedicatedData) (fifo_size : Nat)
    (st : NodeSt) : Option NodeSt :=
  (set_inner_tx_fifo_queue TxMode.Fifo fifo_size
      (set_inner_tx_buffers buffers st)).map
    (set_inner_tx_int fifo_size)

/-- Embeds NewCanNode::set_frame_mode: derive (FDOE, BRSE) from the
frame mode and write both CCCR bits. -/
def set_frame_mode (frame_mode : FrameMode) (st : NodeSt) : NodeSt :=
  let fdoe_brse : Bool × Bool :=
    match frame_mode with
    | .Standard => (false, false)
    | .FdLong => (true, false)
    | .FdLongAndFast => (true, true)
  emit .cccrFrame
    (fun r => { r with fdoe := fdoe_brse.1, brse := fdoe_brse.2 }) st

/-- Embeds NewCanNode::set_bit_timing (write NBTP from calculated
timing). -/
def set_bit_timing (timing : BitTimingRegs) : NodeSt → NodeSt :=
  emit .nbtp fun r =>
    { r with nbrp := timing.brp, nsjw := timing.sjw,
             ntseg1 := timing.tseg1, ntseg2 := timing.tseg2 }

/-- Embeds NewCanNode::set_bit_timing_values (write NBTP from
user-supplied values). -/
def set_bit_timing_values (sjw time_segment2 time_segment1 prescaler : Nat) :
    NodeSt → NodeSt :=
  emit .nbtp fun r =>
    { r with nsjw := sjw, ntseg1 := time_segment1,
             ntseg2 := time_segment2, nbrp := prescaler }

/-- Embeds NewCanNode::configure_baud_rate.  The bit-timing calculator
calculate_bit_timing lives in can/baud_rate.rs, which is not under src/
and computes over f32; the register values it would return are passed in
as calc_timing. -/
def configure_baud_rate (calc_timing : BitTimingRegs)
    (calculate_bit_timing_values : Bool) (baud_rate : BaudRate)
    (st : NodeSt) : NodeSt :=
  if calculate_bit_timing_values then
    set_bit_timing calc_timing st
  else
    set_bit_timing_values baud_rate.sync_jump_with baud_rate.time_segment_2
      baud_rate.time_segment_1 baud_rate.prescalar st

/-- Embeds NewCanNode::set_fast_bit_timing (write DBTP from calculated
fast timing; the f32 calculation is abstracted as calc_timing). -/
def set_fast_bit_timing (calc_timing : BitTimingRegs) : NodeSt → NodeSt :=
  emit .dbtpTiming fun r =>
    { r with dbrp := calc_timing.brp, dsjw := calc_timing.sjw,
             dtseg1 := calc_timing.tseg1, dtseg2 := calc_timing.tseg2 }

/-- Embeds NewCanNode::set_fast_bit_timing_values. -/
def set_fast_bit_timing_values
    (sjw time_segment2 time_segment1 prescaler : Nat) :
    NodeSt → NodeSt :=
  emit .dbtpTiming fun r =>
    { r with dsjw := sjw, dtseg1 := time_segment1,
             dtseg2 := time_segment2, dbrp := prescaler }

/-- Embeds NewCanNode::set_transceiver_delay_compensation_offset: set
the TDC enable bit in DBTP, then write the offset into TDCR. -/
def set_transceiver_delay_compensation_offset (delay : Nat)
    (st : NodeSt) : NodeSt :=
  emit .tdcr (fun r => { r with tdco := delay })
    (emit .dbtpTdc (fun r => { r with tdc := true }) st)

/-- Embeds NewCanNode::configure_fast_baud_rate. -/
def configure_fast_baud_rate (calc_timing : BitTimingRegs)
    (calculate_bit_timing_values : Bool) (baud_rate : FastBaudRate)
    (st : NodeSt) : NodeSt :=
  let st :=
    if calculate_bit_timing_values then
      set_fast_bit_timing calc_timing st
    else
      set_fast_bit_timing_values baud_rate.sync_jump_with
        baud_rate.time_segment_2 baud_rate.time_segment_1
        baud_rate.prescalar st
  if baud_rate.transceiver_delay_offset ≠ 0 then
    set_transceiver_delay_compensation_offset
      baud_rate.transceiver_delay_offset st
  else
    st

/-- Embeds NewCanNode::enable_configuration_change
(src/src/can/can_node.rs lines 280-295).  If INIT is already set, CCE
and INIT are first cleared (each poll loop reads back the bit that was
just written; in this embedding writes take effect immediately, so the
polls terminate at once and leave no trace).  Then INIT is set, polled,
and finally CCE and INIT are set together. -/
def enable_configuration_change (st : NodeSt) : NodeSt :=
  let st :=
    if st.1.init then
      emit .cccrInit (fun r => { r with init := false })
        (emit .cccrCce (fun r => { r with cce := false }) st)
    else
      st
  let st := emit .cccrInit (fun r => { r with init := true }) st
  emit .cccrCceInit (fun r => { r with cce := true, init := true }) st

/-- Embeds NewCanNode::disable_configuration_change
(src/src/can/can_node.rs lines 297-307): clear CCE (poll), then clear
INIT (poll). -/
def disable_configuration_change (st : NodeSt) : NodeSt :=
  emit .cccrInit (fun r => { r with init := false })
    (emit .cccrCce (fun r => { r with cce := false }) st)

/-! ### Module clock mux (src/src/can/can_module/mod.rs) -/

/-- The MCR register of a CAN module: the clock-change handshake bits
CCCE and CI and the four 2-bit clock selector fields. -/
structure McrReg where
  ccce : Bool
  ci : Bool
  clksel0 : Nat
  clksel1 : Nat
  clksel2 : Nat
  clksel3 : Nat
deriving DecidableEq

/-- Read the CLKSELx field selected by a ClockSelect value (always in
0..3, since ClockSelect is built from a NodeId index; the source's
`_ => unreachable!()` arm is therefore unrepresentable). -/
def McrReg.getClksel (m : McrReg) (clock_select : Fin 4) : Nat :=
  match clock_select with
  | 0 => m.clksel0
  | 1 => m.clksel1
  | 2 => m.clksel2
  | 3 => m.clksel3

/-- Write the CLKSELx field selected by a ClockSelect value. -/
def McrReg.setClksel (m : McrReg) (clock_select : Fin 4) (v : Nat) :
    McrReg :=
  match clock_select with
  | 0 => { m with clksel0 := v }
  | 1 => { m with clksel1 := v }
  | 2 => { m with clksel2 := v }
  | 3 => { m with clksel3 := v }

/-- The hardware's response to MCR writes.  A CLKSELx field is not a
plain memory cell: the value read back after the settling delay may
differ from the value written (this is exactly what the read-back
verification in set_clock_source exists to detect, see the source's
TODO about waiting until actual == expected).  clkselResp gives, per
selector index, the value the field holds after v has been written. -/
structure ModuleHw where
  clkselResp : Nat → Nat → Nat

/-- Store an MCR value written by software: handshake bits are plain
read-write bits, each CLKSELx field takes the hardware's response to the
written value. -/
def mcrStore (hw : ModuleHw) (w : McrReg) : McrReg :=
  { w with
    clksel0 := hw.clkselResp 0 w.clksel0,
    clksel1 := hw.clkselResp 1 w.clksel1,
    clksel2 := hw.clkselResp 2 w.clksel2,
    clksel3 := hw.clkselResp 3 w.clksel3 }

/-- Embeds Module::set_clock_source (src/src/can/can_module/mod.rs
lines 83-141): read MCR; set CCCE and CI and write; set the selected
CLKSELx field to the clock-source selector and write; clear CCCE and CI
and write; wait a fixed delay (wait_nop_cycles(10), no register effect);
read MCR back and return Err if the selector field does not hold the
requested value. -/
def set_clock_source (hw : ModuleHw) (clock_select : Fin 4)
    (clock_source : ClockSource) (mcr0 : McrReg) :
    Except Unit Unit × McrReg :=
  let mcr := mcr0
  let mcr := { mcr with ccce := true, ci := true }
  let _store := mcrStore hw mcr
  let cs : Nat := clock_source.to_u8
  let mcr := mcr.setClksel clock_select cs
  let _store := mcrStore hw mcr
  let mcr := { mcr with ccce := false, ci := false }
  let store := mcrStore hw mcr
  let readback := store
  let actual_clock_source := readback.getClksel clock_select
  if actual_clock_source ≠ cs then
    (.error (), store)
  else
    (.ok (), store)

/-! ### NewCanNode::configure (src/src/can/can_node.rs lines 124-201) -/

/-- Embeds NewCanNode::configure.  clock_select is the node's id (the
source converts self.node_id into ClockSelect); calc_nominal and
calc_fast stand for the values the f32 bit-timing calculator (not under
src/) would return.  The returned Except carries the FrameMode stored in
the produced CanNode.  Note that the source drops the Result of
set_clock_source on the floor (the statement ends with `;` and no `?`),
so the error path of the clock switch never influences the result. -/
def configure (hw : ModuleHw) (calc_nominal calc_fast : BitTimingRegs)
    (clock_select : Fin 4) (config : CanNodeConfig) (mcr : McrReg)
    (st : NodeSt) : Except Unit FrameMode × McrReg × NodeSt :=
  -- self.module.set_clock_source(self.node_id.into(), config.clock_source);
  -- (result discarded)
  let mcr := (set_clock_source hw clock_select config.clock_source mcr).2
  -- wait_nop_cycles(10);
  let st := enable_configuration_change st
  let st := configure_baud_rate calc_nominal
    config.calculate_bit_timing_values config.baud_rate st
  -- for CAN FD frames, set fast baud rate
  let st :=
    if config.frame_mode ≠ FrameMode.Standard then
      configure_fast_baud_rate calc_fast config.calculate_bit_timing_values
        config.fast_baud_rate st
    else
      st
  -- transmit frame configuration
  let st :=
    if config.frame_type ≠ FrameType.Receive then
      set_tx_buffer_start_address config.message_ram_tx_buffers_start_address
        (set_tx_buffer_data_field_size config.tx_buffer_data_field_size st)
    else
      st
  let st := set_frame_mode config.frame_mode st
  let st := disable_configuration_change st
  -- TODO FifoData from config (hard-coded in the source)
  let st := set_rx_fifo0
    ⟨DataFieldSize._8, RxFifoMode.Blocking, 0, 4, 0x100⟩ st
  -- TODO DedicatedData from config (hard-coded in the source)
  match set_tx_fifo ⟨DataFieldSize._8, 0x440⟩ 4 st with
  | some st => (.ok config.frame_mode, mcr, st)
  | none => (.error (), mcr, st)

/-! ### Runtime transmit path (src/src/can/can_node.rs lines 453-457,
src/src/can/can_node/effects.rs lines 594-665) -/

/-- A CAN frame (struct Frame, src/src/can/frame.rs; the file is not
under src/, but CanNode::transmit ignores its argument entirely, so any
value object stands in). -/
structure Frame where
  id : Nat
  data : List Nat

/-- Embeds CanNode::transmit (src/src/can/can_node.rs lines 454-457):
the body is `// TODO` followed by `Ok(())` — no register is read or
written and the frame is ignored. -/
def transmit (_frame : Frame) (st : NodeSt) :
    Except Unit Unit × NodeSt :=
  (.ok (), st)

/-- Embeds NodeEffects::set_tx_buffer_add_request
(src/src/can/can_node/effects.rs lines 594-665) as the value the TXBARI
register holds after the write: the 32-way match sets the ARn bit for
buffer id n (n in 0..31); any other id leaves the register unchanged
("Invalid id, nothing to do"). -/
def set_tx_buffer_add_request (id : Nat) (txbari : Nat) : Nat :=
  if id < 32 then txbari ||| (1 <<< id) else txbari

/-! ### Bit-timing calculator (spec-modelled)

The nominal bit-timing calculation calculate_bit_timing lives in
can/baud_rate.rs, which is not under src/ (only its caller
NewCanNode::configure_baud_rate is). -/

/-- Modelled from the spec: the validity test of one candidate prescaler
for calculate_nominal_timing (spec section 4.2).  The total time-quanta
count per bit is clock_hz / (target_baud * prescaler); the quanta before
the sample point (sync segment plus tseg1) are the target_sample_point
fraction of the total, in parts-per-10000; both segments must fit the
nominal register field widths (tseg1 up to 255, tseg2 up to 127, per the
NBTP field ranges documented in src/src/can/can_node/effects.rs) and be
at least one quantum each, and the prescaler must fit its 9-bit field. -/
def validNominalPrescaler (clock_hz target_baud sample_point : Nat)
    (p : Nat) : Bool :=
  let tq := clock_hz / (target_baud * p)
  let before := sample_point * tq / 10000
  decide (1 ≤ p) && decide (p ≤ 512) &&
    decide (2 ≤ before) && decide (before < tq) &&
    decide (before - 1 ≤ 255) && decide (tq - before ≤ 127)

/-- Modelled from the spec: calculate_nominal_timing (spec section 4.2),
the source of which (can/baud_rate.rs) is not under src/.  Choose the
largest prescaler that keeps both segments within range; derive the
total quanta per bit from clock_hz / target_baud, split them at the
target sample point (parts-per-10000), and return {prescaler,
sync-jump-width clamped to its field, tseg1 = quanta-before-sample - 1
(the sync segment), tseg2 = quanta-after-sample}; fail if no prescaler
admits a legal split. -/
def calculate_nominal_timing (clock_hz target_baud sample_point
    sync_jump_width : Nat) : Option BitTimingRegs :=
  match ((List.range 513).reverse).find?
      (fun p => validNominalPrescaler clock_hz target_baud sample_point p)
    with
  | some p =>
    let tq := clock_hz / (target_baud * p)
    let before := sample_point * tq / 10000
    some ⟨p, min sync_jump_width 127, before - 1, tq - before⟩
  | none => none

/-! ### Shared concrete inputs for witnesses and counterexamples -/

/-- The raw size code an element read extracts from RXESC, named so the
theorems can say that both size decoders share one mapping. -/
def rx_size_code (rx_esc : RxEsc) (bfrom : ReadFrom) : Nat :=
  match bfrom with
  | .Buffer _ => rx_esc.rbds
  | .RxFifo0 => rx_esc.f0ds
  | .RxFifo1 => rx_esc.f1ds

/-- A concrete node configuration: classic frames, transmit direction,
user-supplied bit-timing values. -/
def exampleConfig : CanNodeConfig :=
  ⟨ClockSource.Both, false, ⟨0, 0, 0, 0, 0, 0⟩, ⟨0, 0, 0, 0, 0, 0, 0⟩,
   FrameMode.Standard, FrameType.Transmit, TxMode.DedicatedBuffers,
   RxMode.Fifo0, 0, 0x440⟩

/-- The MCR register in its power-on state. -/
def mcrReset : McrReg := ⟨false, false, 0, 0, 0, 0⟩

/-- A hardware response under which every CLKSELx field reads back 0:
the clock-switch verification can never succeed for a nonzero selector. -/
def rejectingHw : ModuleHw := ⟨fun _ _ => 0⟩

/-- A hardware response under which every CLKSELx write is stored as
written: the clock-switch verification always succeeds. -/
def acceptingHw : ModuleHw := ⟨fun _ v => v⟩

/-! ## Theorems -/

/-- Claim C5: the data-field-size decoding maps a size code c to
(c+2)*4 below the threshold code for 32 bytes (value 5) and to (c-3)*16
at or above it, so every code 0..7 yields one of
{8,12,16,20,24,32,48,64}; and the RX decoder get_data_field_size and
the TX decoder get_tx_buffer_data_field_size both apply this same
mapping to their extracted size codes. -/
theorem c5_data_field_size_two_tier_mapping :
    ∀ size_code : Nat, size_code < 8 →
      DataFieldSize._32.as_u8 = 5 ∧
      (size_code < 5 →
        data_field_size_from_code size_code = (size_code + 2) * 4) ∧
      (5 ≤ size_code →
        data_field_size_from_code size_code = (size_code - 3) * 16) ∧
      data_field_size_from_code size_code ∈ [8, 12, 16, 20, 24, 32, 48, 64] ∧
      (∀ (rx_esc : RxEsc) (bfrom : ReadFrom),
        get_data_field_size rx_esc bfrom =
          data_field_size_from_code (rx_size_code rx_esc bfrom)) ∧
      (∀ txesc_raw : Nat,
        get_tx_buffer_data_field_size txesc_raw =
          data_field_size_from_code (txesc_raw &&& 0x2)) := by
  intro c hc
  refine ⟨rfl, ?_, ?_, ?_, ?_, ?_⟩
  · intro h
    rw [data_field_size_from_code, if_pos]
    exact h
  · intro h
    rw [data_field_size_from_code, if_neg]
    simp [DataFieldSize.as_u8]
    omega
  · interval_cases c <;> decide
  · intro rx_esc bfrom
    cases bfrom <;> rfl
  · intro raw
    rfl

/-- Witness for C5 at size code 6: 6 < 8, and the mapping facts hold. -/
theorem c5_witness :
    (6 : Nat) < 8 ∧
    (DataFieldSize._32.as_u8 = 5 ∧
      ((6 : Nat) < 5 →
        data_field_size_from_code 6 = (6 + 2) * 4) ∧
      ((5 : Nat) ≤ 6 →
        data_field_size_from_code 6 = (6 - 3) * 16) ∧
      data_field_size_from_code 6 ∈ [8, 12, 16, 20, 24, 32, 48, 64] ∧
      (∀ (rx_esc : RxEsc) (bfrom : ReadFrom),
        get_data_field_size rx_esc bfrom =
          data_field_size_from_code (rx_size_code rx_esc bfrom)) ∧
      (∀ txesc_raw : Nat,
        get_tx_buffer_data_field_size txesc_raw =
          data_field_size_from_code (txesc_raw &&& 0x2))) :=
  ⟨by decide, c5_data_field_size_two_tier_mapping 6 (by decide)⟩

/-- Claim C6: get_message_id returns the raw identifier shifted right by
18 bits exactly when the XTD bit indicates a standard identifier, and
the full unshifted identifier when XTD indicates an extended one. -/
theorem c6_message_id_shift :
    ∀ r0 : RxElementR0,
      (r0.xtd = false → get_message_id r0 = r0.id >>> 18) ∧
      (r0.xtd = true → get_message_id r0 = r0.id) := by
  intro r0
  constructor <;> intro h <;> simp [get_message_id, h]

/-- Witness for C6: a standard-identifier element is shifted by 18 and
an extended-identifier element is returned unshifted. -/
theorem c6_witness :
    (RxElementR0.mk 0x14325678 false).xtd = false ∧
    get_message_id ⟨0x14325678, false⟩ = 0x14325678 >>> 18 ∧
    (RxElementR0.mk 0x14325678 true).xtd = true ∧
    get_message_id ⟨0x14325678, true⟩ = 0x14325678 :=
  ⟨rfl, (c6_message_id_shift ⟨0x14325678, false⟩).1 rfl,
   rfl, (c6_message_id_shift ⟨0x14325678, true⟩).2 rfl⟩

/-- Counterexample for C7: the misaligned start address 0x101 is
accepted by set_rx_fifo0_start_address and produces exactly the same
state (register value and write trace) as the aligned address 0x100 —
the low two address bits are silently discarded, there is no
precondition failure. -/
theorem c7_counterexample :
    set_rx_fifo0_start_address 0x101 (NodeRegs.reset, []) =
      set_rx_fifo0_start_address 0x100 (NodeRegs.reset, []) ∧
    (0x101 : Nat) % 4 ≠ 0 := by
  constructor
  · decide
  · decide

/-- Claim C7 as amended: the start-address setters encode any address by
shifting it right two bits into the hardware address field, so the
stored region start is the address divided by 4 — a misaligned address
is silently truncated to the next lower multiple of 4 and no error is
signalled. -/
theorem c7_amended_start_address_truncated :
    ∀ (address : Nat) (st : NodeSt),
      (set_rx_fifo0_start_address address st).1.f0sa = address / 4 ∧
      (set_tx_buffer_start_address address st).1.tbsa = address / 4 := by
  intro a st
  constructor <;>
    simp [set_rx_fifo0_start_address, set_tx_buffer_start_address, emit,
      Nat.shiftRight_eq_div_pow]

/-- Claim C2: a take_node call on an already-claimed slot returns no
node handle and leaves the claimed-flags array unchanged, and a
take_node call on a different, unclaimed slot still succeeds
afterwards (marking that slot claimed). -/
theorem c2_take_node_already_claimed :
    ∀ (nodes_taken : List Bool) (i j : Nat) (node_new_ok : Bool),
      nodes_taken.getD i false = true →
      nodes_taken.getD j false = false →
      take_node node_new_ok nodes_taken i = (none, nodes_taken) ∧
      (take_node true nodes_taken j).1 = some () ∧
      (take_node true nodes_taken j).2 = nodes_taken.set j true := by
  intro t i j cok hi hj
  simp only [List.getD_eq_getElem?_getD] at hi hj
  refine ⟨?_, ?_, ?_⟩ <;> simp [take_node, hi, hj]

/-- Witness for C2 on a module whose slot 0 is claimed and slot 1 is
free. -/
theorem c2_witness :
    ([true, false, false, false].getD 0 false = true) ∧
    ([true, false, false, false].getD 1 false = false) ∧
    (take_node false [true, false, false, false] 0 =
      (none, [true, false, false, false]) ∧
      (take_node true [true, false, false, false] 1).1 = some () ∧
      (take_node true [true, false, false, false] 1).2 =
        [true, false, false, false].set 1 true) :=
  ⟨by decide, by decide,
    c2_take_node_already_claimed [true, false, false, false] 0 1 false
      (by decide) (by decide)⟩

/-- Claim C9: take_node sets the slot's claimed flag before the fallible
Node::new step, so when node creation fails the call returns no handle
while the slot stays marked claimed, and every later take_node on that
slot fails as well — a failed configuration permanently consumes the
slot. -/
theorem c9_failed_create_consumes_slot :
    ∀ (nodes_taken : List Bool) (i : Nat),
      i < nodes_taken.length →
      nodes_taken.getD i false = false →
      (take_node false nodes_taken i).1 = none ∧
      (take_node false nodes_taken i).2.getD i false = true ∧
      (∀ node_new_ok,
        take_node node_new_ok (take_node false nodes_taken i).2 i =
          (none, (take_node false nodes_taken i).2)) := by
  intro t i hlen hi
  have hset : (t.set i true)[i]?.getD false = true := by
    rw [List.getElem?_set_self hlen]
    rfl
  simp only [List.getD_eq_getElem?_getD] at hi
  refine ⟨?_, ?_, ?_⟩
  · simp [take_node, hi]
  · simp [take_node, List.getD_eq_getElem?_getD, hi, hset]
  · intro cok
    simp [take_node, List.getD_eq_getElem?_getD, hi, hset]

/-- Witness for C9: claiming slot 2 of a fresh module while node
creation fails consumes the slot for good. -/
theorem c9_witness :
    (2 : Nat) < [false, false, false, false].length ∧
    [false, false, false, false].getD 2 false = false ∧
    ((take_node false [false, false, false, false] 2).1 = none ∧
      (take_node false [false, false, false, false] 2).2.getD 2 false
        = true ∧
      (∀ node_new_ok,
        take_node node_new_ok
            (take_node false [false, false, false, false] 2).2 2 =
          (none, (take_node false [false, false, false, false] 2).2))) :=
  ⟨by decide, by decide,
    c9_failed_create_consumes_slot [false, false, false, false] 2
      (by decide) (by decide)⟩

/-! ### Helper lemmas for wait_cond -/

/-- A wrapping decrement of a positive in-range counter value is an
ordinary decrement. -/
theorem wrap_dec_of_pos {W t : Nat} (h1 : 0 < t) (h2 : t < W) :
    wrap_dec W t = t - 1 := by
  rw [wrap_dec]
  have h3 : t + (W - 1) = W + (t - 1) := by omega
  rw [h3, Nat.add_mod_left]
  exact Nat.mod_eq_of_lt (by omega)

/-- A wrapping decrement of 0 underflows to the maximum counter value. -/
theorem wrap_dec_zero {W : Nat} (hW : 1 < W) :
    wrap_dec W 0 = W - 1 := by
  rw [wrap_dec, Nat.zero_add]
  exact Nat.mod_eq_of_lt (by omega)

/-- If the condition holds for the first t evaluations (t the current
counter value, nonzero and in range), the wait loop reports a
timeout. -/
theorem wait_cond_go_err (W : Nat) (hW : 1 < W) :
    ∀ (t : Nat), 0 < t → t < W →
    ∀ (cond : Nat → Bool) (i : Nat),
      (∀ k, k < t → cond (i + k) = true) →
      wait_cond_go W hW cond i t = .error () := by
  intro t
  induction t using Nat.strong_induction_on with
  | _ t ih =>
    intro h1 h2 cond i hall
    have h0 : cond i = true := by simpa using hall 0 h1
    rw [wait_cond_go.eq_def, h0]
    simp only [Bool.true_eq_false, if_false]
    rw [wrap_dec_of_pos h1 h2]
    by_cases ht : t - 1 = 0
    · simp [ht]
    · rw [if_neg ht]
      refine ih (t - 1) (by omega) (by omega) (by omega) cond (i + 1) ?_
      intro k hk
      have heq : i + 1 + k = i + (k + 1) := by omega
      rw [heq]
      exact hall (k + 1) (by omega)

/-- If the condition turns false at its (j+1)-th evaluation before the
counter (currently t) can reach zero, the wait loop returns Ok. -/
theorem wait_cond_go_ok (W : Nat) (hW : 1 < W) :
    ∀ (j : Nat) (cond : Nat → Bool) (i t : Nat),
      j < t → t < W →
      cond (i + j) = false →
      (∀ k, k < j → cond (i + k) = true) →
      wait_cond_go W hW cond i t = .ok () := by
  intro j
  induction j with
  | zero =>
    intro cond i t hjt hU hj _
    have h0 : cond i = false := by simpa using hj
    rw [wait_cond_go.eq_def, h0]
    simp
  | succ j ih =>
    intro cond i t hjt hU hj hfirst
    have h0 : cond i = true := by simpa using hfirst 0 (by omega)
    rw [wait_cond_go.eq_def, h0]
    simp only [Bool.true_eq_false, if_false]
    rw [wrap_dec_of_pos (by omega) hU]
    rw [if_neg (by omega)]
    refine ih cond (i + 1) (t - 1) (by omega) (by omega) ?_ ?_
    · have heq : i + 1 + j = i + (j + 1) := by omega
      rw [heq]
      exact hj
    · intro k hk
      have heq : i + 1 + k = i + (k + 1) := by omega
      rw [heq]
      exact hfirst (k + 1) (by omega)

/-- Claim C10: for a counter of at least 1, wait_cond returns Err once
the condition has evaluated to true timeout_cycle_count consecutive
times, and returns Ok as soon as the condition evaluates to false (it
waits while the condition holds); with a counter of 0 and an initially
true condition, the usize decrement underflows — the loop continues
with the counter wrapped to usize::MAX instead of reporting a timeout,
and in particular still returns Ok if the condition later turns false. -/
theorem c10_wait_cond_semantics :
    (∀ (timeout_cycle_count : Nat) (cond : Nat → Bool),
      1 ≤ timeout_cycle_count → timeout_cycle_count < USIZE_SIZE →
      (∀ k, k < timeout_cycle_count → cond k = true) →
      wait_cond timeout_cycle_count cond = .error ()) ∧
    (∀ (timeout_cycle_count : Nat) (cond : Nat → Bool) (j : Nat),
      j < timeout_cycle_count → timeout_cycle_count < USIZE_SIZE →
      cond j = false → (∀ k, k < j → cond k = true) →
      wait_cond timeout_cycle_count cond = .ok ()) ∧
    (∀ cond : Nat → Bool, cond 0 = true →
      wait_cond 0 cond =
        wait_cond_go USIZE_SIZE one_lt_USIZE_SIZE cond 1
          (USIZE_SIZE - 1)) ∧
    (∀ cond : Nat → Bool, cond 0 = true → cond 1 = false →
      wait_cond 0 cond = .ok ()) := by
  refine ⟨?_, ?_, ?_, ?_⟩
  · intro t cond h1 h2 hall
    refine wait_cond_go_err USIZE_SIZE one_lt_USIZE_SIZE t h1 h2 cond 0 ?_
    intro k hk
    simpa using hall k hk
  · intro t cond j hjt hU hj hfirst
    refine wait_cond_go_ok USIZE_SIZE one_lt_USIZE_SIZE j cond 0 t hjt hU
      (by simpa using hj) ?_
    intro k hk
    simpa using hfirst k hk
  · intro cond h0
    rw [wait_cond, wait_cond_go.eq_def, h0]
    simp only [Bool.true_eq_false, if_false]
    rw [wrap_dec_zero one_lt_USIZE_SIZE, if_neg (by simp [USIZE_SIZE])]
  · intro cond h0 h1
    rw [wait_cond, wait_cond_go.eq_def, h0]
    simp only [Bool.true_eq_false, if_false]
    rw [wrap_dec_zero one_lt_USIZE_SIZE, if_neg (by simp [USIZE_SIZE])]
    rw [wait_cond_go.eq_def, h1]
    simp

/-- Witness for C10: a condition that is true for the first 3
evaluations times out with a counter of 3; a condition that turns false
at its third evaluation succeeds with a counter of 3; a condition that
is true once and then false makes wait_cond 0 wrap and return Ok. -/
theorem c10_witness :
    ((1 : Nat) ≤ 3 ∧ (3 : Nat) < USIZE_SIZE ∧
      wait_cond 3 (fun _ => true) = .error ()) ∧
    ((2 : Nat) < 3 ∧ (fun k : Nat => decide (k < 2)) 2 = false ∧
      wait_cond 3 (fun k => decide (k < 2)) = .ok ()) ∧
    ((fun k : Nat => decide (k = 0)) 0 = true ∧
      (fun k : Nat => decide (k = 0)) 1 = false ∧
      wait_cond 0 (fun k => decide (k = 0)) = Except.ok ()) :=
  ⟨⟨by decide, by simp [USIZE_SIZE],
    c10_wait_cond_semantics.1 3 (fun _ => true) (by decide)
      (by simp [USIZE_SIZE]) (fun k _ => rfl)⟩,
   ⟨by decide, by decide,
    c10_wait_cond_semantics.2.1 3 (fun k => decide (k < 2)) 2 (by decide)
      (by simp [USIZE_SIZE]) (by decide) (fun k hk => by
        interval_cases k <;> decide)⟩,
   ⟨by decide, by decide,
    c10_wait_cond_semantics.2.2.2 (fun k => decide (k = 0)) (by decide)
      (by decide)⟩⟩

/-! ### Helper lemmas for the clock mux -/

/-- Reading back the selector field just written returns the written
value as transformed by the hardware. -/
theorem mcrStore_getClksel (hw : ModuleHw) (w : McrReg)
    (clock_select : Fin 4) :
    (mcrStore hw w).getClksel clock_select =
      hw.clkselResp clock_select.val (w.getClksel clock_select) := by
  fin_cases clock_select <;> rfl

/-- Setting a selector field and reading the same field round-trips. -/
theorem getClksel_setClksel (m : McrReg) (clock_select : Fin 4) (v : Nat) :
    (m.setClksel clock_select v).getClksel clock_select = v := by
  fin_cases clock_select <;> rfl

/-- The handshake-bit updates do not touch the selector fields. -/
theorem getClksel_handshake (m : McrReg) (clock_select : Fin 4)
    (b c : Bool) :
    ({ m with ccce := b, ci := c }).getClksel clock_select =
      m.getClksel clock_select := by
  fin_cases clock_select <;> rfl

/-- Claim C1: when the clock-switch verification fails (the read-back
selector differs from the requested one), set_clock_source does return
Err — but NewCanNode::configure discards that Result and still returns
Ok with an operational CanNode, so the configuration attempt is NOT
aborted. -/
theorem c1_clock_switch_error_discarded :
    ∀ (hw : ModuleHw) (clock_select : Fin 4) (config : CanNodeConfig)
      (mcr : McrReg) (st : NodeSt) (calc_nominal calc_fast : BitTimingRegs),
      hw.clkselResp clock_select.val config.clock_source.to_u8 ≠
        config.clock_source.to_u8 →
      (set_clock_source hw clock_select config.clock_source mcr).1 =
        .error () ∧
      (configure hw calc_nominal calc_fast clock_select config mcr st).1 =
        .ok config.frame_mode := by
  intro hw sel cfg mcr st cn cf h
  constructor
  · simp only [set_clock_source]
    rw [mcrStore_getClksel, getClksel_handshake, getClksel_setClksel]
    rw [if_pos h]
  · rfl

/-- Witness for C1: a hardware response that stores 0 in every selector
field rejects the request for ClockSource::Both (selector 3), yet
configure completes with Ok. -/
theorem c1_witness :
    rejectingHw.clkselResp (0 : Fin 4).val
        exampleConfig.clock_source.to_u8 ≠
      exampleConfig.clock_source.to_u8 ∧
    ((set_clock_source rejectingHw 0 exampleConfig.clock_source
        mcrReset).1 = .error () ∧
      (configure rejectingHw ⟨1, 1, 1, 1⟩ ⟨1, 1, 1, 1⟩ 0 exampleConfig
          mcrReset (NodeRegs.reset, [])).1 = .ok exampleConfig.frame_mode) :=
  ⟨by decide,
    c1_clock_switch_error_discarded rejectingHw 0 exampleConfig mcrReset
      (NodeRegs.reset, []) ⟨1, 1, 1, 1⟩ ⟨1, 1, 1, 1⟩ (by decide)⟩

/-- Claim C3 (refuted, code bug): running configure on a concrete
configuration produces timing and frame-mode writes inside the
configuration-change window, but the RX FIFO0 and TX buffer/FIFO
RAM-layout writes are issued after disable_configuration_change has
cleared CCE and INIT: the trace contains layout writes with CCE clear
(for example the RX FIFO0 start-address write and the TX buffer
start-address write of the hard-coded set_tx_fifo call), so it is false
that every such mutation happens in the ConfigurationChangeEnabled
state. -/
theorem c3_layout_writes_after_cce_cleared :
    (Event.mk RegField.nbtp true true) ∈
      (configure acceptingHw ⟨1, 1, 1, 1⟩ ⟨1, 1, 1, 1⟩ 0 exampleConfig
        mcrReset (NodeRegs.reset, [])).2.2.2 ∧
    (Event.mk RegField.rxf0cF0sa false false) ∈
      (configure acceptingHw ⟨1, 1, 1, 1⟩ ⟨1, 1, 1, 1⟩ 0 exampleConfig
        mcrReset (NodeRegs.reset, [])).2.2.2 ∧
    (Event.mk RegField.txbcTbsa false false) ∈
      (configure acceptingHw ⟨1, 1, 1, 1⟩ ⟨1, 1, 1, 1⟩ 0 exampleConfig
        mcrReset (NodeRegs.reset, [])).2.2.2 ∧
    ((configure acceptingHw ⟨1, 1, 1, 1⟩ ⟨1, 1, 1, 1⟩ 0 exampleConfig
        mcrReset (NodeRegs.reset, [])).2.2.2.any
      (fun e => e.reg.isTimingOrLayout && !e.cce)) = true := by
  refine ⟨?_, ?_, ?_, ?_⟩ <;> decide

/-- Claim C4 (refuted, code bug): CanNode::transmit is a TODO stub — it
returns Ok(()) for every frame while leaving the register state and the
write trace completely unchanged, so no TX buffer is written and no
add-transmission-request bit is ever set; the add-request write the
spec describes exists only as the (uncalled) set_tx_buffer_add_request
register helper, which sets the ARn bit of its buffer index. -/
theorem c4_transmit_is_a_stub :
    (∀ (frame : Frame) (st : NodeSt), transmit frame st = (.ok (), st)) ∧
    set_tx_buffer_add_request 5 0 = 2 ^ 5 :=
  ⟨fun _ _ => rfl, by decide⟩

/-- Claim C8 (spec-modelled): for valid inputs, the nominal bit-timing
calculation is a pure function whose result satisfies
prescaler * (1 + tseg1 + tseg2) = clock_hz / target_baud up to a
rounding error below one prescaler step, and whose sample point
(1 + tseg1) out of (1 + tseg1 + tseg2) quanta matches the requested
parts-per-10000 sample point to within one time quantum. -/
theorem c8_nominal_timing_bounds :
    ∀ (clock_hz target_baud sample_point sync_jump_width : Nat)
      (bt : BitTimingRegs),
      0 < target_baud →
      calculate_nominal_timing clock_hz target_baud sample_point
        sync_jump_width = some bt →
      (bt.brp * (1 + bt.tseg1 + bt.tseg2) ≤ clock_hz / target_baud ∧
        clock_hz / target_baud <
          bt.brp * (1 + bt.tseg1 + bt.tseg2) + bt.brp) ∧
      ((1 + bt.tseg1) * 10000 ≤
          sample_point * (1 + bt.tseg1 + bt.tseg2) ∧
        sample_point * (1 + bt.tseg1 + bt.tseg2) <
          (1 + bt.tseg1 + 1) * 10000) := by
  intro clock baud sp sjw bt hbaud hcalc
  unfold calculate_nominal_timing at hcalc
  cases hfind : ((List.range 513).reverse).find?
      (fun p => validNominalPrescaler clock baud sp p) with
  | none =>
    rw [hfind] at hcalc
    exact absurd hcalc (by simp)
  | some p =>
    rw [hfind] at hcalc
    simp only [Option.some.injEq] at hcalc
    subst hcalc
    have hvalid := List.find?_some hfind
    simp only [validNominalPrescaler, Bool.and_eq_true,
      decide_eq_true_eq] at hvalid
    obtain ⟨⟨⟨⟨⟨hp1, hp512⟩, hb2⟩, hblt⟩, ht1⟩, ht2⟩ := hvalid
    simp only
    set tq := clock / (baud * p) with htqdef
    set before := sp * tq / 10000 with hbefdef
    have hsum : 1 + (before - 1) + (tq - before) = tq := by omega
    have hb1 : 1 + (before - 1) = before := by omega
    rw [hsum, hb1]
    constructor
    · have hq : tq = clock / baud / p := by
        rw [htqdef, Nat.div_div_eq_div_mul]
      rw [hq]
      have hmod1 := Nat.div_add_mod (clock / baud) p
      have hmodlt1 : (clock / baud) % p < p := Nat.mod_lt _ (by omega)
      generalize hA : p * (clock / baud / p) = A at hmod1 ⊢
      omega
    · have hmod2 := Nat.div_add_mod (sp * tq) 10000
      have hmodlt2 : (sp * tq) % 10000 < 10000 :=
        Nat.mod_lt _ (by norm_num)
      rw [← hbefdef] at hmod2
      generalize hB : sp * tq = B at hmod2 hmodlt2 hbefdef ⊢
      omega

set_option maxRecDepth 100000 in
/-- Witness for C8 at clock 8000 Hz, target baud 100, sample point
80.00%, sync jump width 3: the calculator returns prescaler 26 with
tseg1 = tseg2 = 1, and the bounds hold. -/
theorem c8_witness :
    (0 : Nat) < 100 ∧
    calculate_nominal_timing 8000 100 8000 3 = some ⟨26, 3, 1, 1⟩ ∧
    ((26 * (1 + 1 + 1) ≤ 8000 / 100 ∧
        8000 / 100 < 26 * (1 + 1 + 1) + 26) ∧
      ((1 + 1) * 10000 ≤ 8000 * (1 + 1 + 1) ∧
        8000 * (1 + 1 + 1) < (1 + 1 + 1) * 10000)) :=
  ⟨by decide, by decide,
    c8_nominal_timing_bounds 8000 100 8000 3 ⟨26, 3, 1, 1⟩ (by decide)
      (by decide)⟩

end Tc37x
